/-
Verification of the xion signer-mode backend demo.

Shallow embedding of the repository's TypeScript sources:
  * `src/storage/MemoryStorageStrategy.ts` — in-memory key/value storage,
  * `src/services/WalletService.ts` — per-identity viem wallet store,
  * `src/config/defaultConfig.ts` — configuration record and `validateConfig`,
  * `src/services/AbstraxionService.ts` — the session orchestrator.

Modelling conventions:
  * A JavaScript `Map<string, T>` is embedded as an association list
    `List (String × T)` with `mapGet` / `mapSet` / `mapDelete` mirroring
    `get` / `set` / `delete` (replace-in-place on hit, append on miss).
    JavaScript maps never hold duplicate keys; theorems that need this carry
    the hypothesis `countKey m k ≤ 1` at the relevant key.
  * TypeScript `throw` is embedded as `Except.error` carrying the thrown
    message; functions whose bodies cannot throw keep a plain return type.
  * The external `SignerController` (from `@burnt-labs/abstraxion`, outside
    this repository) is modelled by its observable state: the value that its
    `getState()` returns, one of the four status variants the service code
    matches on.  External calls made while constructing or driving the
    controller are recorded in an explicit effect list.
  * `viem`'s `generatePrivateKey` / `privateKeyToAccount` are external
    randomised constructors; the freshly generated `WalletData` is passed to
    `createWallet` as an explicit parameter.
-/
import Mathlib

set_option autoImplicit false

/-! ### Association-list model of the JavaScript Map -/

/-- `Map.get`: first entry whose key equals `k`, if any. -/
def mapGet {α : Type} : List (String × α) → String → Option α
  | [], _ => none
  | (k', v) :: rest, k => if k' = k then some v else mapGet rest k

/-- `Map.set`: replace the entry for `k` in place, or append a new one. -/
def mapSet {α : Type} : List (String × α) → String → α → List (String × α)
  | [], k, v => [(k, v)]
  | (k', v') :: rest, k, v =>
      if k' = k then (k, v) :: rest else (k', v') :: mapSet rest k v

/-- `Map.delete`: drop the first entry whose key equals `k`. -/
def mapDelete {α : Type} : List (String × α) → String → List (String × α)
  | [], _ => []
  | (k', v') :: rest, k => if k' = k then rest else (k', v') :: mapDelete rest k

/-- Number of entries whose key equals `k` (0 or 1 for a real `Map`). -/
def countKey {α : Type} : List (String × α) → String → Nat
  | [], _ => 0
  | (k', _) :: rest, k => (if k' = k then 1 else 0) + countKey rest k

/-! ### MemoryStorageStrategy (`src/storage/MemoryStorageStrategy.ts`) -/

/-- The in-memory storage strategy: a `Map<string, string>`. -/
structure MemoryStorageStrategy where
  storage : List (String × String)
deriving DecidableEq

/-- `getItem`: `return this.storage.get(key) || null` — note the JavaScript
`||`, which coalesces a stored empty string (falsy) to `null`. -/
def MemoryStorageStrategy.getItem (s : MemoryStorageStrategy) (key : String) :
    Option String :=
  match mapGet s.storage key with
  | some v => if v = "" then none else some v
  | none => none

/-- `setItem`: `this.storage.set(key, value)`. -/
def MemoryStorageStrategy.setItem (s : MemoryStorageStrategy)
    (key value : String) : MemoryStorageStrategy :=
  ⟨mapSet s.storage key value⟩

/-- `removeItem`: `this.storage.delete(key)`. -/
def MemoryStorageStrategy.removeItem (s : MemoryStorageStrategy)
    (key : String) : MemoryStorageStrategy :=
  ⟨mapDelete s.storage key⟩

/-- Specification-side predicate (not in the source): `v` round-trips through
`setItem`/`getItem`, i.e. the stored value is returned verbatim. -/
def storageRoundTrips (s : MemoryStorageStrategy) (key v : String) : Prop :=
  MemoryStorageStrategy.getItem (MemoryStorageStrategy.setItem s key v) key = some v

/-! ### WalletService (`src/services/WalletService.ts`) -/

/-- A viem `Account`, as used by the service: an address plus the optional
`signMessage` capability (`account.signMessage` may be absent, the code
checks for it).  Signing is external cryptography; it is modelled as an
abstract pure function from the raw hex payload to the signature, which in
particular makes repeated signing of the same payload deterministic. -/
structure Account where
  address : String
  sign : Option (String → String)

/-- `WalletData`: the stored record for one identity. -/
structure WalletData where
  privateKey : String
  account : Account

/-- The wallet service: `private wallets: Map<string, WalletData>`. -/
structure WalletService where
  wallets : List (String × WalletData)

/-- `AUTHENTICATOR_TYPE.EthWallet` from `@burnt-labs/signers`. -/
def AUTHENTICATOR_TYPE_EthWallet : String := "EthWallet"

/-- `createWallet(userId)`: if a record exists, return its address unchanged;
otherwise store the freshly generated keypair (`fresh`, produced externally
by `generatePrivateKey`/`privateKeyToAccount`) and return its address.
Returns the updated service and the address. -/
def WalletService.createWallet (fresh : WalletData) (s : WalletService)
    (userId : String) : WalletService × String :=
  match mapGet s.wallets userId with
  | some existingWallet => (s, existingWallet.account.address)
  | none => (⟨mapSet s.wallets userId fresh⟩, fresh.account.address)

/-- `getWallet(userId)`: `this.wallets.get(userId) || null` (a `WalletData`
object is never falsy, so this is just the lookup). -/
def WalletService.getWallet (s : WalletService) (userId : String) :
    Option WalletData :=
  mapGet s.wallets userId

/-- `String.prototype.startsWith(p)`, modelled over the character list (the
built-in `String.startsWith` is byte-position based and does not reduce
definitionally, which concrete witnesses need). -/
def strStartsWith (s pre : String) : Bool :=
  List.isPrefixOf pre.data s.data

/-- The `signMessage` closure built by `getSignerConfig`: rejects payloads
that do not start with `"0x"`, then checks the account has a `signMessage`
method, then signs.  Note the source validates only the `"0x"` prefix — the
characters after it are not checked to be hexadecimal digits. -/
def signMessageClosure (account : Account) (hexMessage : String) :
    Except String String :=
  if !strStartsWith hexMessage "0x" then
    .error ("Invalid message format: expected hex string with 0x prefix, got: "
      ++ hexMessage.take 50 ++ "...")
  else
    match account.sign with
    | none => .error "Account does not have a signMessage method"
    | some signFn => .ok (signFn hexMessage)

/-- The `SignerConfig` returned to Abstraxion. -/
structure SignerConfig where
  authenticatorType : String
  authenticator : String
  signMessage : String → Except String String

/-- `getSignerConfig(userId)`: `NotFound`-style error when no record exists,
otherwise the signer config bound to the stored account. -/
def WalletService.getSignerConfig (s : WalletService) (userId : String) :
    Except String SignerConfig :=
  match WalletService.getWallet s userId with
  | none =>
      .error ("Wallet not found for user: " ++ userId
        ++ ". Call createWallet() first.")
  | some wallet =>
      .ok { authenticatorType := AUTHENTICATOR_TYPE_EthWallet
            authenticator := wallet.account.address.toLower
            signMessage := signMessageClosure wallet.account }

/-- `deleteWallet(userId)`: `this.wallets.delete(userId)`. -/
def WalletService.deleteWallet (s : WalletService) (userId : String) :
    WalletService :=
  ⟨mapDelete s.wallets userId⟩

/-- `getWalletCount()`: `this.wallets.size`. -/
def WalletService.getWalletCount (s : WalletService) : Nat :=
  s.wallets.length

/-- Specification-side predicate (not in the source): `p` is a `0x`-prefixed
string of hexadecimal digits, the format the spec says `signMessage`
requires. -/
def isHexPayload (p : String) : Bool :=
  strStartsWith p "0x" && (p.data.drop 2).all fun c =>
    c.isDigit || ('a' ≤ c && c ≤ 'f') || ('A' ≤ c && c ≤ 'F')

/-! ### Configuration (`src/config/defaultConfig.ts`) -/

/-- `smartAccountContract` sub-record.  (`addressPrefix`, an optional display
field unused by every verified claim, is omitted.) -/
structure SmartAccountContract where
  codeId : Nat
  checksum : String
deriving DecidableEq

/-- `AppConfig`: the process configuration record.  `feeGranter` and
`treasury` come from optional environment variables, hence `Option`. -/
structure AppConfig where
  chainId : String
  rpcUrl : String
  restUrl : String
  gasPrice : String
  aaApiUrl : String
  feeGranter : Option String
  treasury : Option String
  smartAccountContract : SmartAccountContract
deriving DecidableEq

/-- JavaScript falsiness of an optional string: `undefined` or `""`. -/
def optStringFalsy : Option String → Bool
  | none => true
  | some s => s = ""

/-- `validateConfig`: throws when the checksum is missing (empty) and when
the fee granter is missing, in that order. -/
def validateConfig (config : AppConfig) : Except String Unit :=
  if config.smartAccountContract.checksum = "" then
    .error "CHECKSUM environment variable is required for smart account contract"
  else if optStringFalsy config.feeGranter then
    .error "FEE_GRANTER_ADDRESS environment variable is required for signer mode"
  else
    .ok ()

/-! ### AbstraxionService (`src/services/AbstraxionService.ts`) -/

/-- The `account` field of the controller's connected state. -/
structure ConnectedAccount where
  granterAddress : String
  granteeAddress : String
deriving DecidableEq

/-- The external `GranteeSignerClient`, opaque to this repository. -/
structure GranteeSignerClient where
  clientId : Nat
deriving DecidableEq

/-- The observable state of the external `SignerController`, i.e. the shape
of `controller.getState()` as matched by the service: a `status` tag plus,
when connected, the account addresses and a possibly-absent signing client,
and, on error, the error message. -/
inductive ControllerState where
  | idle
  | connecting
  | connected (account : ConnectedAccount)
      (signingClient : Option GranteeSignerClient)
  | error (errMsg : String)
deriving DecidableEq

/-- The `status` tag of a controller state, as the string the source
compares against. -/
def ControllerState.status : ControllerState → String
  | .idle => "idle"
  | .connecting => "connecting"
  | .connected _ _ => "connected"
  | .error _ => "error"

/-- `AbstraxionServiceConfig` (the fields the verified claims observe; the
`getSignerConfig` callback and the optional indexer/grant fields are opaque
to every claim and omitted). -/
structure AbstraxionServiceConfig where
  chainId : String
  rpcUrl : String
  restUrl : String
  gasPrice : String
  aaApiUrl : String
  smartAccountContract : SmartAccountContract
  feeGranter : Option String
  treasury : Option String
deriving DecidableEq

/-- External calls the service makes on its collaborators. -/
inductive ServiceEffect where
  | constructController
  | controllerInitialize
  | controllerDisconnect
  | controllerDestroy
deriving DecidableEq

/-- The service: the stored config and `controller: SignerController | null`,
the controller modelled by its observable state. -/
structure AbstraxionService where
  config : AbstraxionServiceConfig
  controller : Option ControllerState
deriving DecidableEq

/-- The constructor: stores the config; `controller` starts as `null`. -/
def newService (config : AbstraxionServiceConfig) : AbstraxionService :=
  { config := config, controller := none }

/-- `index.ts`: the `AbstraxionServiceConfig` built from the `AppConfig`. -/
def serviceConfigOf (c : AppConfig) : AbstraxionServiceConfig :=
  { chainId := c.chainId
    rpcUrl := c.rpcUrl
    restUrl := c.restUrl
    gasPrice := c.gasPrice
    aaApiUrl := c.aaApiUrl
    smartAccountContract := c.smartAccountContract
    feeGranter := c.feeGranter
    treasury := c.treasury }

/-- `index.ts` startup: `validateConfig(defaultConfig)` runs first and a
failure exits the process, so the service is only ever constructed — and a
fortiori no network call is ever attempted — after validation succeeds. -/
def runStartup (c : AppConfig) : Except String AbstraxionService :=
  match validateConfig c with
  | .error e => .error e
  | .ok _ => .ok (newService (serviceConfigOf c))

/-- `initialize()`: if a controller already exists, return immediately;
otherwise build and normalise the config, construct the controller
(`SignerController.fromConfig`) and run its `initialize()`.  The state the
external controller settles into is the parameter `outcome`; the external
calls performed are returned as an effect list. -/
def AbstraxionService.initService (outcome : ControllerState)
    (s : AbstraxionService) : AbstraxionService × List ServiceEffect :=
  match s.controller with
  | some _ => (s, [])
  | none =>
      ({ s with controller := some outcome },
        [.constructController, .controllerInitialize])

/-- `disconnect()`: if a controller exists, call its `disconnect()` and set
the field back to `null`; otherwise do nothing. -/
def AbstraxionService.disconnect (s : AbstraxionService) :
    AbstraxionService × List ServiceEffect :=
  match s.controller with
  | some _ => ({ s with controller := none }, [.controllerDisconnect])
  | none => (s, [])

/-- `destroy()`: like `disconnect()` but via the controller's `destroy()`. -/
def AbstraxionService.destroy (s : AbstraxionService) :
    AbstraxionService × List ServiceEffect :=
  match s.controller with
  | some _ => ({ s with controller := none }, [.controllerDestroy])
  | none => (s, [])

/-- `getState()`: `{status: "idle"}` when there is no controller, else the
controller's state. -/
def AbstraxionService.getState (s : AbstraxionService) : ControllerState :=
  match s.controller with
  | none => .idle
  | some st => st

/-- `isConnected()`: `getState().status === "connected"`. -/
def AbstraxionService.isConnected (s : AbstraxionService) : Bool :=
  ControllerState.status (AbstraxionService.getState s) == "connected"

/-- `getGranterAddress()`: the connected account's granter address, else a
thrown `NotConnected` error. -/
def AbstraxionService.getGranterAddress (s : AbstraxionService) :
    Except String String :=
  match AbstraxionService.getState s with
  | .connected account _ => .ok account.granterAddress
  | _ => .error "Not connected. Call connect() first."

/-- `getGranteeAddress()`: the connected account's grantee address, else a
thrown `NotConnected` error. -/
def AbstraxionService.getGranteeAddress (s : AbstraxionService) :
    Except String String :=
  match AbstraxionService.getState s with
  | .connected account _ => .ok account.granteeAddress
  | _ => .error "Not connected. Call connect() first."

/-- `getSigningClient()`: requires `status === "connected"` AND a truthy
`state.signingClient`. -/
def AbstraxionService.getSigningClient (s : AbstraxionService) :
    Except String GranteeSignerClient :=
  match AbstraxionService.getState s with
  | .connected _ (some client) => .ok client
  | _ =>
      .error "Not connected or signing client not available. Call connect() first."

/-- `getError()`: the message in the error state, else `null`. -/
def AbstraxionService.getError (s : AbstraxionService) : Option String :=
  match AbstraxionService.getState s with
  | .error m => some m
  | _ => none

/-! ### Helper lemmas about the association-list map -/

theorem mapGet_mapSet_self {α : Type} (m : List (String × α)) (k : String)
    (v : α) : mapGet (mapSet m k v) k = some v := by
  induction m with
  | nil => simp [mapSet, mapGet]
  | cons hd tl ih =>
    obtain ⟨k', v'⟩ := hd
    by_cases h : k' = k
    · simp [mapSet, mapGet, h]
    · simp [mapSet, mapGet, h, ih]

theorem mapGet_mapSet_ne {α : Type} (m : List (String × α)) (k j : String)
    (v : α) (hne : j ≠ k) : mapGet (mapSet m k v) j = mapGet m j := by
  induction m with
  | nil => simp [mapSet, mapGet, Ne.symm hne]
  | cons hd tl ih =>
    obtain ⟨k', v'⟩ := hd
    by_cases h : k' = k
    · subst h
      simp [mapSet, mapGet, Ne.symm hne]
    · simp [mapSet, mapGet, h, ih]

theorem mapGet_mapDelete_ne {α : Type} (m : List (String × α)) (k j : String)
    (hne : j ≠ k) : mapGet (mapDelete m k) j = mapGet m j := by
  induction m with
  | nil => simp [mapDelete]
  | cons hd tl ih =>
    obtain ⟨k', v'⟩ := hd
    by_cases h : k' = k
    · subst h
      simp [mapDelete, mapGet, Ne.symm hne]
    · simp [mapDelete, mapGet, h, ih]

theorem countKey_zero_of_mapGet_none {α : Type} (m : List (String × α))
    (k : String) (h : mapGet m k = none) : countKey m k = 0 := by
  induction m with
  | nil => simp [countKey]
  | cons hd tl ih =>
    obtain ⟨k', v'⟩ := hd
    by_cases hk : k' = k
    · simp [mapGet, hk] at h
    · simp [mapGet, hk] at h
      simp [countKey, hk, ih h]

theorem countKey_one_of_mapGet_some {α : Type} (m : List (String × α))
    (k : String) (v : α) (hle : countKey m k ≤ 1) (h : mapGet m k = some v) :
    countKey m k = 1 := by
  induction m with
  | nil => simp [mapGet] at h
  | cons hd tl ih =>
    obtain ⟨k', v'⟩ := hd
    by_cases hk : k' = k
    · simp [countKey, hk] at hle ⊢
      omega
    · simp [mapGet, hk] at h
      simp [countKey, hk] at hle ⊢
      exact ih hle h

theorem mapSet_of_mapGet_none {α : Type} (m : List (String × α)) (k : String)
    (v : α) (h : mapGet m k = none) : mapSet m k v = m ++ [(k, v)] := by
  induction m with
  | nil => simp [mapSet]
  | cons hd tl ih =>
    obtain ⟨k', v'⟩ := hd
    by_cases hk : k' = k
    · simp [mapGet, hk] at h
    · simp [mapGet, hk] at h
      simp [mapSet, hk, ih h]

theorem countKey_append {α : Type} (m m' : List (String × α)) (k : String) :
    countKey (m ++ m') k = countKey m k + countKey m' k := by
  induction m with
  | nil => simp [countKey]
  | cons hd tl ih =>
    obtain ⟨k', v'⟩ := hd
    simp [countKey, ih]
    omega

theorem mapGet_mapDelete_self {α : Type} (m : List (String × α)) (k : String)
    (hle : countKey m k ≤ 1) : mapGet (mapDelete m k) k = none := by
  induction m with
  | nil => simp [mapDelete, mapGet]
  | cons hd tl ih =>
    obtain ⟨k', v'⟩ := hd
    by_cases hk : k' = k
    · simp [countKey, hk] at hle
      have h0 : countKey tl k = 0 := by omega
      have : mapGet tl k = none := by
        clear ih hle
        induction tl with
        | nil => simp [mapGet]
        | cons hd' tl' ih' =>
          obtain ⟨k'', v''⟩ := hd'
          by_cases hk2 : k'' = k
          · simp [countKey, hk2] at h0
          · simp [countKey, hk2] at h0
            simp [mapGet, hk2, ih' h0]
      simp [mapDelete, hk, this]
    · simp [countKey, hk] at hle
      simp [mapDelete, mapGet, hk, ih hle]

/-! ### Claim theorems: AbstraxionService -/

/-- C1: in every state whose status is not `"connected"`, `getGranterAddress`,
`getGranteeAddress` and `getSigningClient` all fail with the `NotConnected`
error; when the state is connected, the granter/grantee accessors return the
addresses stored in that state. -/
theorem accessors_require_connected (s : AbstraxionService) :
    (ControllerState.status (AbstraxionService.getState s) ≠ "connected" →
      AbstraxionService.getGranterAddress s =
        .error "Not connected. Call connect() first." ∧
      AbstraxionService.getGranteeAddress s =
        .error "Not connected. Call connect() first." ∧
      AbstraxionService.getSigningClient s =
        .error "Not connected or signing client not available. Call connect() first.") ∧
    (∀ account client, AbstraxionService.getState s = .connected account client →
      AbstraxionService.getGranterAddress s = .ok account.granterAddress ∧
      AbstraxionService.getGranteeAddress s = .ok account.granteeAddress) := by
  obtain ⟨cfg, ctrl⟩ := s
  cases ctrl with
  | none =>
      refine ⟨fun _ => ⟨rfl, rfl, rfl⟩, fun a c h => ?_⟩
      simp [AbstraxionService.getState] at h
  | some st =>
      cases st with
      | idle =>
          refine ⟨fun _ => ⟨rfl, rfl, rfl⟩, fun a c h => ?_⟩
          simp [AbstraxionService.getState] at h
      | connecting =>
          refine ⟨fun _ => ⟨rfl, rfl, rfl⟩, fun a c h => ?_⟩
          simp [AbstraxionService.getState] at h
      | error m =>
          refine ⟨fun _ => ⟨rfl, rfl, rfl⟩, fun a c h => ?_⟩
          simp [AbstraxionService.getState] at h
      | connected account client =>
          refine ⟨fun h => absurd rfl h, fun a c h => ?_⟩
          simp [AbstraxionService.getState] at h
          obtain ⟨ha, hc⟩ := h
          subst ha
          exact ⟨rfl, rfl⟩

/-- C1 witness: on a freshly constructed (idle) service all three accessors
fail with the `NotConnected` error. -/
theorem accessors_require_connected_witness :
    AbstraxionService.getGranterAddress
      (newService ⟨"xion-testnet-2", "r", "t", "0.001uxion", "a", ⟨1, "cs"⟩, none, none⟩) =
      .error "Not connected. Call connect() first." ∧
    AbstraxionService.getGranteeAddress
      (newService ⟨"xion-testnet-2", "r", "t", "0.001uxion", "a", ⟨1, "cs"⟩, none, none⟩) =
      .error "Not connected. Call connect() first." ∧
    AbstraxionService.getSigningClient
      (newService ⟨"xion-testnet-2", "r", "t", "0.001uxion", "a", ⟨1, "cs"⟩, none, none⟩) =
      .error "Not connected or signing client not available. Call connect() first." :=
  (accessors_require_connected
    (newService ⟨"xion-testnet-2", "r", "t", "0.001uxion", "a", ⟨1, "cs"⟩, none, none⟩)).1
    (by decide)

/-- C2: when a controller already exists, a second `initialize()` returns the
service unchanged and performs no external call (no controller construction,
no controller `initialize()`), so the observable `getState()` is identical. -/
theorem initialize_idempotent (s : AbstraxionService)
    (c outcome : ControllerState) (h : s.controller = some c) :
    AbstraxionService.initService outcome s = (s, []) ∧
    AbstraxionService.getState (AbstraxionService.initService outcome s).1 =
      AbstraxionService.getState s := by
  obtain ⟨cfg, ctrl⟩ := s
  cases ctrl with
  | none => exact Option.noConfusion h
  | some st => exact ⟨rfl, rfl⟩

/-- C2 witness: a second `initialize()` on a service whose controller is in
the connecting state is a no-effect no-op. -/
theorem initialize_idempotent_witness :
    AbstraxionService.initService .idle
      ⟨⟨"c", "r", "t", "g", "a", ⟨1, "cs"⟩, none, none⟩, some .connecting⟩ =
      (⟨⟨"c", "r", "t", "g", "a", ⟨1, "cs"⟩, none, none⟩, some .connecting⟩, []) ∧
    AbstraxionService.getState
      (AbstraxionService.initService .idle
        ⟨⟨"c", "r", "t", "g", "a", ⟨1, "cs"⟩, none, none⟩, some .connecting⟩).1 =
      AbstraxionService.getState
        ⟨⟨"c", "r", "t", "g", "a", ⟨1, "cs"⟩, none, none⟩, some .connecting⟩ :=
  initialize_idempotent _ .connecting .idle rfl

/-- C7: `disconnect()` always lands in the idle state (status `"idle"`,
`isConnected()` false) regardless of the prior state, and a repeated
`disconnect()` from there is a no-op with no external call and the same
resulting state. -/
theorem disconnect_resets_to_idle (s : AbstraxionService) :
    AbstraxionService.getState (AbstraxionService.disconnect s).1 = .idle ∧
    ControllerState.status
      (AbstraxionService.getState (AbstraxionService.disconnect s).1) = "idle" ∧
    AbstraxionService.isConnected (AbstraxionService.disconnect s).1 = false ∧
    AbstraxionService.disconnect (AbstraxionService.disconnect s).1 =
      ((AbstraxionService.disconnect s).1, []) := by
  obtain ⟨cfg, ctrl⟩ := s
  cases ctrl with
  | none => exact ⟨rfl, rfl, rfl, rfl⟩
  | some st => exact ⟨rfl, rfl, rfl, rfl⟩

/-- C9: the state-observation accessors are total (they are plain functions,
mirroring the absence of any `throw` in their bodies); on a freshly
constructed service `getState()` is idle, `isConnected()` is false and
`getError()` is `null`; and `getError()` is non-null exactly when the state's
status is `"error"`. -/
theorem state_accessors_total (cfg : AbstraxionServiceConfig)
    (s : AbstraxionService) :
    AbstraxionService.getState (newService cfg) = .idle ∧
    AbstraxionService.isConnected (newService cfg) = false ∧
    AbstraxionService.getError (newService cfg) = none ∧
    ((AbstraxionService.getError s).isSome = true ↔
      ControllerState.status (AbstraxionService.getState s) = "error") := by
  refine ⟨rfl, rfl, rfl, ?_⟩
  obtain ⟨c, ctrl⟩ := s
  cases ctrl with
  | none =>
      exact iff_of_false (by simp [AbstraxionService.getError,
        AbstraxionService.getState])
            (by simp only [AbstraxionService.getState, ControllerState.status]; decide)
  | some st =>
      cases st with
      | idle =>
          exact iff_of_false (by simp [AbstraxionService.getError,
            AbstraxionService.getState])
            (by simp only [AbstraxionService.getState, ControllerState.status]; decide)
      | connecting =>
          exact iff_of_false (by simp [AbstraxionService.getError,
            AbstraxionService.getState])
            (by simp only [AbstraxionService.getState, ControllerState.status]; decide)
      | connected a cl =>
          exact iff_of_false (by simp [AbstraxionService.getError,
            AbstraxionService.getState])
            (by simp only [AbstraxionService.getState, ControllerState.status]; decide)
      | error m =>
          exact iff_of_true (by simp [AbstraxionService.getError,
            AbstraxionService.getState]) rfl

/-- C10: `getSigningClient()` succeeds exactly when the state is connected
AND carries a signing client; in a connected state with no signing client it
fails with the `NotConnected`-style error even though `isConnected()` is
true. -/
theorem getSigningClient_iff_client_present (s : AbstraxionService) :
    ((∃ client, AbstraxionService.getSigningClient s = .ok client) ↔
      ∃ account client,
        AbstraxionService.getState s = .connected account (some client)) ∧
    (∀ account, AbstraxionService.getState s = .connected account none →
      AbstraxionService.getSigningClient s =
        .error "Not connected or signing client not available. Call connect() first." ∧
      AbstraxionService.isConnected s = true) := by
  obtain ⟨cfg, ctrl⟩ := s
  cases ctrl with
  | none =>
      refine ⟨?_, ?_⟩
      · simp [AbstraxionService.getSigningClient, AbstraxionService.getState]
      · intro a h
        simp [AbstraxionService.getState] at h
  | some st =>
      cases st with
      | idle =>
          refine ⟨?_, ?_⟩
          · simp [AbstraxionService.getSigningClient, AbstraxionService.getState]
          · intro a h
            simp [AbstraxionService.getState] at h
      | connecting =>
          refine ⟨?_, ?_⟩
          · simp [AbstraxionService.getSigningClient, AbstraxionService.getState]
          · intro a h
            simp [AbstraxionService.getState] at h
      | error m =>
          refine ⟨?_, ?_⟩
          · simp [AbstraxionService.getSigningClient, AbstraxionService.getState]
          · intro a h
            simp [AbstraxionService.getState] at h
      | connected account client =>
          cases client with
          | none =>
              refine ⟨?_, fun a h => ⟨rfl, rfl⟩⟩
              simp [AbstraxionService.getSigningClient, AbstraxionService.getState]
          | some cl =>
              refine ⟨?_, fun a h => ?_⟩
              · simp [AbstraxionService.getSigningClient, AbstraxionService.getState]
              · simp [AbstraxionService.getState] at h

/-- C10 witness: a connected state whose `signingClient` is absent makes
`getSigningClient()` fail while `isConnected()` reports true. -/
theorem getSigningClient_iff_client_present_witness :
    AbstraxionService.getSigningClient
      ⟨⟨"c", "r", "t", "g", "a", ⟨1, "cs"⟩, none, none⟩,
        some (.connected ⟨"xiongranter", "xiongrantee"⟩ none)⟩ =
      .error "Not connected or signing client not available. Call connect() first." ∧
    AbstraxionService.isConnected
      ⟨⟨"c", "r", "t", "g", "a", ⟨1, "cs"⟩, none, none⟩,
        some (.connected ⟨"xiongranter", "xiongrantee"⟩ none)⟩ = true :=
  (getSigningClient_iff_client_present
    ⟨⟨"c", "r", "t", "g", "a", ⟨1, "cs"⟩, none, none⟩,
      some (.connected ⟨"xiongranter", "xiongrantee"⟩ none)⟩).2
    ⟨"xiongranter", "xiongrantee"⟩ rfl

/-! ### Claim theorems: WalletService -/

/-- C3: `createWallet` is idempotent per identity: a second call returns the
first call's address and leaves the store unchanged, exactly one record
exists for the identity after the first call, the wallet count does not grow
on the second call, and when no record existed the first call stores the
freshly generated keypair and returns its address.  The hypothesis is the
`Map` invariant (at most one entry per key). -/
theorem createWallet_idempotent (s : WalletService) (i : String)
    (k k' : WalletData) (hkey : countKey s.wallets i ≤ 1) :
    (WalletService.createWallet k' (WalletService.createWallet k s i).1 i).2 =
      (WalletService.createWallet k s i).2 ∧
    (WalletService.createWallet k' (WalletService.createWallet k s i).1 i).1 =
      (WalletService.createWallet k s i).1 ∧
    countKey (WalletService.createWallet k s i).1.wallets i = 1 ∧
    WalletService.getWalletCount
      (WalletService.createWallet k' (WalletService.createWallet k s i).1 i).1 =
      WalletService.getWalletCount (WalletService.createWallet k s i).1 ∧
    (mapGet s.wallets i = none →
      mapGet (WalletService.createWallet k s i).1.wallets i = some k ∧
      (WalletService.createWallet k s i).2 = k.account.address) := by
  cases hget : mapGet s.wallets i with
  | some w =>
      have h1 : WalletService.createWallet k s i = (s, w.account.address) := by
        simp [WalletService.createWallet, hget]
      rw [h1]
      have h2 : WalletService.createWallet k' s i = (s, w.account.address) := by
        simp [WalletService.createWallet, hget]
      refine ⟨by rw [h2], by rw [h2], ?_, by rw [h2], ?_⟩
      · exact countKey_one_of_mapGet_some s.wallets i w hkey hget
      · exact fun hnone => Option.noConfusion hnone
  | none =>
      have h1 : WalletService.createWallet k s i =
          (⟨mapSet s.wallets i k⟩, k.account.address) := by
        simp [WalletService.createWallet, hget]
      rw [h1]
      have hself : mapGet (mapSet s.wallets i k) i = some k :=
        mapGet_mapSet_self s.wallets i k
      have h2 : WalletService.createWallet k' ⟨mapSet s.wallets i k⟩ i =
          (⟨mapSet s.wallets i k⟩, k.account.address) := by
        simp [WalletService.createWallet, hself]
      refine ⟨by rw [h2], by rw [h2], ?_, by rw [h2], fun _ => ⟨hself, rfl⟩⟩
      rw [mapSet_of_mapGet_none s.wallets i k hget, countKey_append,
        countKey_zero_of_mapGet_none s.wallets i hget]
      simp [countKey]

/-- C3 witness: on an empty store, after the first `createWallet` call for
`"u1"` the store holds exactly one record for `"u1"`, and the second call
returns the same address while leaving the store unchanged. -/
theorem createWallet_idempotent_witness :
    countKey (WalletService.createWallet ⟨"0xpk1", "0xaddr1", some fun m => m⟩
      ⟨[]⟩ "u1").1.wallets "u1" = 1 ∧
    (WalletService.createWallet ⟨"0xpk2", "0xaddr2", some fun m => m⟩
      (WalletService.createWallet ⟨"0xpk1", "0xaddr1", some fun m => m⟩
        ⟨[]⟩ "u1").1 "u1").2 =
      (WalletService.createWallet ⟨"0xpk1", "0xaddr1", some fun m => m⟩
        ⟨[]⟩ "u1").2 :=
  ⟨(createWallet_idempotent ⟨[]⟩ "u1" ⟨"0xpk1", "0xaddr1", some fun m => m⟩
      ⟨"0xpk2", "0xaddr2", some fun m => m⟩ (by decide)).2.2.1,
   (createWallet_idempotent ⟨[]⟩ "u1" ⟨"0xpk1", "0xaddr1", some fun m => m⟩
      ⟨"0xpk2", "0xaddr2", some fun m => m⟩ (by decide)).1⟩

/-- C4 counterexample: `"0xzz"` is not a `0x`-prefixed *hex* string, yet the
`signMessage` closure does not fail with the `InvalidFormat` error — it
proceeds to sign, because the source checks only the `"0x"` prefix. -/
theorem signMessage_hex_claim_counterexample :
    isHexPayload "0xzz" = false ∧
    signMessageClosure ⟨"0xaddr1", some fun m => m⟩ "0xzz" = .ok "0xzz" := by
  constructor
  · decide
  · rfl

/-- C4 (amended): the closure validates only the `"0x"` prefix: a payload
not starting with `"0x"` fails with the `InvalidFormat` error and is never
signed, while any payload starting with `"0x"` — hexadecimal digits or not —
passes the format check and is signed (deterministically, the signing
function being applied to the raw payload). -/
theorem signMessage_prefix_only (account : Account) (payload : String) :
    (strStartsWith payload "0x" = false →
      signMessageClosure account payload =
        .error ("Invalid message format: expected hex string with 0x prefix, got: "
          ++ payload.take 50 ++ "...")) ∧
    (strStartsWith payload "0x" = true →
      ∀ f, account.sign = some f →
        signMessageClosure account payload = .ok (f payload)) := by
  constructor
  · intro h
    simp [signMessageClosure, h]
  · intro h f hf
    simp [signMessageClosure, h, hf]

/-- C4 witness: a payload without the `0x` prefix is rejected with the
`InvalidFormat` error. -/
theorem signMessage_prefix_only_witness :
    signMessageClosure ⟨"0xaddr1", some fun m => m⟩ "hello" =
      .error ("Invalid message format: expected hex string with 0x prefix, got: "
        ++ "hello".take 50 ++ "...") :=
  (signMessage_prefix_only ⟨"0xaddr1", some fun m => m⟩ "hello").1 (by decide)

/-! ### Claim theorems: MemoryStorageStrategy -/

/-- C5 counterexample: storing the empty string does not round-trip —
`getItem` after `setItem(k, "")` returns `null` (the JavaScript `|| null`
coalesces the falsy empty string), not the stored `""`. -/
theorem storage_empty_value_counterexample :
    MemoryStorageStrategy.getItem
      (MemoryStorageStrategy.setItem ⟨[]⟩ "session" "") "session" ≠ some "" := by
  decide

/-- C5 (amended): for every *non-empty* value the storage round-trips
(`getItem` after `setItem` returns the value), `getItem` after `removeItem`
is absent, and both calls leave every other key unaffected; a stored empty
string, however, is read back as `null`.  The `countKey` hypothesis is the
`Map` invariant at the removed key. -/
theorem storage_roundtrip (s : MemoryStorageStrategy) (key v : String)
    (hv : v ≠ "") (hk : countKey s.storage key ≤ 1) :
    storageRoundTrips s key v ∧
    MemoryStorageStrategy.getItem (MemoryStorageStrategy.removeItem s key) key =
      none ∧
    (∀ other, other ≠ key →
      MemoryStorageStrategy.getItem (MemoryStorageStrategy.setItem s key v) other =
        MemoryStorageStrategy.getItem s other ∧
      MemoryStorageStrategy.getItem (MemoryStorageStrategy.removeItem s key) other =
        MemoryStorageStrategy.getItem s other) := by
  refine ⟨?_, ?_, ?_⟩
  · unfold storageRoundTrips
    simp [MemoryStorageStrategy.getItem, MemoryStorageStrategy.setItem,
      mapGet_mapSet_self, hv]
  · simp [MemoryStorageStrategy.getItem, MemoryStorageStrategy.removeItem,
      mapGet_mapDelete_self s.storage key hk]
  · intro other hne
    constructor
    · simp [MemoryStorageStrategy.getItem, MemoryStorageStrategy.setItem,
        mapGet_mapSet_ne s.storage key other v hne]
    · simp [MemoryStorageStrategy.getItem, MemoryStorageStrategy.removeItem,
        mapGet_mapDelete_ne s.storage key other hne]

/-- C5 witness: a concrete non-empty value round-trips and is gone after
removal, and an unrelated key is untouched. -/
theorem storage_roundtrip_witness :
    storageRoundTrips ⟨[("other", "kept")]⟩ "k" "v" ∧
    MemoryStorageStrategy.getItem
      (MemoryStorageStrategy.removeItem ⟨[("other", "kept")]⟩ "k") "k" = none ∧
    MemoryStorageStrategy.getItem
      (MemoryStorageStrategy.setItem ⟨[("other", "kept")]⟩ "k" "v") "other" =
      MemoryStorageStrategy.getItem ⟨[("other", "kept")]⟩ "other" :=
  ⟨(storage_roundtrip ⟨[("other", "kept")]⟩ "k" "v" (by decide) (by decide)).1,
   (storage_roundtrip ⟨[("other", "kept")]⟩ "k" "v" (by decide) (by decide)).2.1,
   ((storage_roundtrip ⟨[("other", "kept")]⟩ "k" "v" (by decide) (by decide)).2.2
     "other" (by decide)).1⟩

/-! ### Claim theorems: configuration validation -/

/-- C6: startup validation fails fast — with an empty checksum the startup
aborts with the checksum error, with a missing (or empty) fee granter it
aborts with the fee-granter error, and in both cases the service is never
constructed (so no network call is ever attempted); the two error messages
are distinct; with both fields present validation succeeds and startup
constructs the service. -/
theorem validateConfig_fail_fast (c : AppConfig) :
    (c.smartAccountContract.checksum = "" →
      runStartup c =
        .error "CHECKSUM environment variable is required for smart account contract") ∧
    (c.smartAccountContract.checksum ≠ "" → optStringFalsy c.feeGranter = true →
      runStartup c =
        .error "FEE_GRANTER_ADDRESS environment variable is required for signer mode") ∧
    (c.smartAccountContract.checksum ≠ "" → optStringFalsy c.feeGranter = false →
      runStartup c = .ok (newService (serviceConfigOf c))) ∧
    ("CHECKSUM environment variable is required for smart account contract" ≠
      "FEE_GRANTER_ADDRESS environment variable is required for signer mode") := by
  refine ⟨?_, ?_, ?_, by decide⟩
  · intro h
    simp [runStartup, validateConfig, h]
  · intro h hf
    simp [runStartup, validateConfig, h, hf]
  · intro h hf
    simp [runStartup, validateConfig, h, hf]

/-- C6 witness: a config with a checksum but no fee granter aborts startup
with the fee-granter validation error (and hence never builds the service). -/
theorem validateConfig_fail_fast_witness :
    runStartup ⟨"xion-testnet-2", "r", "t", "0.001uxion", "a", none, none,
      ⟨1, "abc123"⟩⟩ =
      .error "FEE_GRANTER_ADDRESS environment variable is required for signer mode" :=
  (validateConfig_fail_fast
    ⟨"xion-testnet-2", "r", "t", "0.001uxion", "a", none, none,
      ⟨1, "abc123"⟩⟩).2.1 (by decide) (by decide)

/-- C8: `getSignerConfig` fails with the `NotFound` error for any identity
with no stored record — both when it was never created and right after its
record is deleted. -/
theorem getSignerConfig_notFound (s : WalletService) (i : String)
    (h : mapGet s.wallets i = none) :
    WalletService.getSignerConfig s i =
      .error ("Wallet not found for user: " ++ i ++ ". Call createWallet() first.") ∧
    (∀ s' : WalletService, countKey s'.wallets i ≤ 1 →
      WalletService.getSignerConfig (WalletService.deleteWallet s' i) i =
        .error ("Wallet not found for user: " ++ i ++ ". Call createWallet() first.")) := by
  constructor
  · simp [WalletService.getSignerConfig, WalletService.getWallet, h]
  · intro s' h'
    simp [WalletService.getSignerConfig, WalletService.getWallet,
      WalletService.deleteWallet, mapGet_mapDelete_self s'.wallets i h']

/-- C8 witness: on an empty wallet store, `getSignerConfig` for `"ghost"`
fails with the `NotFound` error. -/
theorem getSignerConfig_notFound_witness :
    WalletService.getSignerConfig ⟨[]⟩ "ghost" =
      .error ("Wallet not found for user: " ++ "ghost" ++ ". Call createWallet() first.") :=
  (getSignerConfig_notFound ⟨[]⟩ "ghost" rfl).1
